import Mathlib

/-!
Verification of the service worker in service-worker.js: the request
router with its cache-first strategy, the bypass rule for the local
Pi server, the push-notification normalizer and platform adaptation,
the activate-time cache garbage collection, and the control-message
dispatch. Each JS handler is shallowly embedded as an executable Lean
function over explicit state, and the spec's claims are proved or
refuted against these definitions.
-/

namespace SW

/-! ### Strings: JS String.prototype.includes -/

/-- Boolean test that the first list is a leading segment of the second. -/
def leadsList : List Char → List Char → Bool
  | [], _ => true
  | _ :: _, [] => false
  | a :: s, b :: t => a == b && leadsList s t

/-- Boolean test that `sub` occurs contiguously somewhere in the second list. -/
def infixList (sub : List Char) : List Char → Bool
  | [] => leadsList sub []
  | b :: t => leadsList sub (b :: t) || infixList sub t

/-- JS `s.includes(sub)`: substring containment at any position. -/
def strIncludes (s sub : String) : Bool :=
  infixList sub.toList s.toList

/-! ### URLs and the bypass classification (fetch listener, lines 43-50) -/

/-- The parts of a parsed URL inspected by the fetch listener. -/
structure Url where
  hostname : String
  port : String
  pathname : String
deriving DecidableEq

/-- `CACHE_NAME`, the current cache generation identifier. -/
def CACHE_NAME : String := "simple-reminders-v1"

/-- The bypass test of the fetch listener:
`url.hostname.includes("192.168.") || url.port === "3001"`. -/
def isBypass (u : Url) : Bool :=
  strIncludes u.hostname "192.168." || u.port == "3001"

/-! ### Responses, the cache store and the cacheable-request strategy
(fetch listener, lines 53-82) -/

/-- The parts of an HTTP response the worker inspects or constructs. -/
structure Response where
  status : Nat
  contentType : String
  body : String
deriving DecidableEq

/-- The current cache generation: an association of request keys to
stored responses, most recent first. -/
abbrev Cache := List (String × Response)

/-- `caches.match`: exact-key lookup of a request in the cache. -/
def cacheMatch (c : Cache) (k : String) : Option Response :=
  (List.find? (fun p => p.1 == k) c).map (fun p => p.2)

/-- `cache.put`: store a response under the request key. -/
def cachePut (c : Cache) (k : String) (r : Response) : Cache :=
  (k, r) :: c

/-- The synthesized error body `JSON.stringify` produces for the object
with fields `error` and `message`. -/
structure ErrJson where
  error : String
  message : String
deriving DecidableEq

/-- `JSON.stringify` of a two-field `error`/`message` object. -/
def jsonStringifyErr (e : ErrJson) : String :=
  "\x7b\"error\":\"" ++ e.error ++ "\",\"message\":\"" ++ e.message ++ "\"\x7d"

/-- The response synthesized in the fetch listener's catch branch:
status 408, JSON content type, body with `error` and `message` fields. -/
def offlineResponse : Response :=
  { status := 408
    contentType := "application/json"
    body := jsonStringifyErr
      { error := "Network error"
        message := "Please check your connection and try again" } }

/-- Outcome of handling one cacheable request: the response delivered,
the cache afterwards, and whether the network was called. -/
structure FetchOutcome where
  response : Response
  cache : Cache
  networkCalled : Bool

/-- The cache-first strategy for cacheable requests (lines 54-81).
`net` is the network's answer for this request: `some r` for a response,
`none` for a network failure (the rejected fetch promise). -/
def handleCacheable (c : Cache) (k : String) (net : Option Response) : FetchOutcome :=
  match cacheMatch c k with
  | some r => { response := r, cache := c, networkCalled := false }
  | none =>
    match net with
    | some r =>
      if r.status == 200 then
        { response := r, cache := cachePut c k r, networkCalled := true }
      else
        { response := r, cache := c, networkCalled := true }
    | none => { response := offlineResponse, cache := c, networkCalled := true }

/-- What the fetch listener does with one event: bypass (return before
`respondWith`, so the platform performs the default network fetch) or
respond with the cache-first outcome. -/
inductive FetchAction where
  | bypass
  | respond (o : FetchOutcome)

/-- The whole fetch listener (lines 43-83). -/
def handleFetch (c : Cache) (u : Url) (k : String) (net : Option Response) : FetchAction :=
  if isBypass u then FetchAction.bypass
  else FetchAction.respond (handleCacheable c k net)

/-- The response the client observes: on bypass, the platform's direct
network fetch; otherwise the handler's response. -/
def deliveredResponse (c : Cache) (u : Url) (k : String) (net : Option Response) :
    Option Response :=
  match handleFetch c u k net with
  | FetchAction.bypass => net
  | FetchAction.respond o => some o.response

/-- The cache contents after the fetch event. -/
def finalCache (c : Cache) (u : Url) (k : String) (net : Option Response) : Cache :=
  match handleFetch c u k net with
  | FetchAction.bypass => c
  | FetchAction.respond o => o.cache

/-! ### Push notifications (push listener, lines 86-183) -/

/-- One notification action button: action id, title, icon. -/
structure NAction where
  action : String
  title : String
  icon : String
deriving DecidableEq

/-- The `data` map attached to the notification. -/
structure NData where
  url : String
  timestamp : Nat
  source : String
deriving DecidableEq

/-- The notification descriptor the push listener builds and hands to
`showNotification`. `actions := none` models an absent `actions` field. -/
structure NotificationData where
  title : String
  body : String
  icon : String
  badge : String
  tag : String
  requireInteraction : Bool
  vibrate : List Nat
  actions : Option (List NAction)
  data : NData
deriving DecidableEq

/-- The default icon SVG data URL (line 92). -/
def defaultIcon : String :=
  "data:image/svg+xml,<svg xmlns=\"http://www.w3.org/2000/svg\" viewBox=\"0 0 100 100\"><circle cx=\"50\" cy=\"50\" r=\"40\" fill=\"%233b82f6\"/><text x=\"50\" y=\"65\" text-anchor=\"middle\" font-size=\"30\" fill=\"white\">⏰</text></svg>"

/-- The default badge SVG data URL (line 93). -/
def defaultBadge : String :=
  "data:image/svg+xml,<svg xmlns=\"http://www.w3.org/2000/svg\" viewBox=\"0 0 100 100\"><circle cx=\"50\" cy=\"50\" r=\"40\" fill=\"%23ef4444\"/><text x=\"50\" y=\"65\" text-anchor=\"middle\" font-size=\"30\" fill=\"white\">🔔</text></svg>"

/-- The iOS-friendly badge SVG data URL (line 138). -/
def iosBadge : String :=
  "data:image/svg+xml,<svg xmlns=\"http://www.w3.org/2000/svg\" viewBox=\"0 0 96 96\"><circle cx=\"48\" cy=\"48\" r=\"40\" fill=\"%23ef4444\"/><text x=\"48\" y=\"65\" text-anchor=\"middle\" font-size=\"24\" fill=\"white\">🔔</text></svg>"

/-- The initial `notificationData` object (lines 89-102), parameterized
by `self.location.origin` and `Date.now()`. -/
def defaultNotification (origin : String) (now : Nat) : NotificationData :=
  { title := "⏰ Reminder"
    body := "You have a scheduled reminder!"
    icon := defaultIcon
    badge := defaultBadge
    tag := "reminder-notification"
    requireInteraction := true
    vibrate := [200, 100, 200, 100, 200]
    actions := none
    data := { url := origin, timestamp := now, source := "pi-reminder-server" } }

/-- A structured push payload: any subset of the descriptor's fields,
`some` for a field the JSON object supplies. -/
structure PushData where
  title : Option String := none
  body : Option String := none
  icon : Option String := none
  badge : Option String := none
  tag : Option String := none
  requireInteraction : Option Bool := none
  vibrate : Option (List Nat) := none
  actions : Option (List NAction) := none
  data : Option NData := none
deriving DecidableEq

/-- The push event's payload as the listener sees it: absent, parsing
as structured data, or failing to parse with `event.data.text()` giving
the plain text. -/
inductive PushPayload where
  | noData
  | json (p : PushData)
  | text (s : String)
deriving DecidableEq

/-- The object-spread merge of lines 111-117:
spread defaults, spread the payload over them, then force
`requireInteraction` and `vibrate` back to their fixed values. -/
def mergePush (d : NotificationData) (p : PushData) : NotificationData :=
  { title := p.title.getD d.title
    body := p.body.getD d.body
    icon := p.icon.getD d.icon
    badge := p.badge.getD d.badge
    tag := p.tag.getD d.tag
    requireInteraction := true
    vibrate := [200, 100, 200, 100, 200]
    actions := match p.actions with | some a => some a | none => d.actions
    data := p.data.getD d.data }

/-- Lines 104-123: the payload normalization step. A structured payload
is merged over the defaults; a parse failure falls back to using the
plain text as `body` only; no payload leaves the defaults untouched.
The try/catch makes this total: parse failure never escapes. -/
def normalizePush (origin : String) (now : Nat) (payload : PushPayload) : NotificationData :=
  let d := defaultNotification origin now
  match payload with
  | PushPayload.noData => d
  | PushPayload.json p => mergePush d p
  | PushPayload.text s => { d with body := s }

/-- The fixed `open` action button (lines 142-146). -/
def openAction : NAction :=
  { action := "open"
    title := "📱 Open App"
    icon := "data:image/svg+xml,<svg xmlns=\"http://www.w3.org/2000/svg\" viewBox=\"0 0 24 24\" fill=\"white\"><path d=\"M19 13h-6v6h-2v-6H5v-2h6V5h2v6h6v2z\"/></svg>" }

/-- The fixed `dismiss` action button (lines 147-151). -/
def dismissAction : NAction :=
  { action := "dismiss"
    title := "✕ Dismiss"
    icon := "data:image/svg+xml,<svg xmlns=\"http://www.w3.org/2000/svg\" viewBox=\"0 0 24 24\" fill=\"white\"><path d=\"M19 6.41L17.59 5 12 10.59 6.41 5 5 6.41 10.59 12 5 17.59 6.41 19 12 13.41 17.59 19 19 17.59 13.41 12z\"/></svg>" }

/-- The iOS detection of lines 126-127:
`/iPad|iPhone|iPod/.test(userAgent)`. -/
def isIOSAgent (ua : String) : Bool :=
  strIncludes ua "iPad" || strIncludes ua "iPhone" || strIncludes ua "iPod"

/-- The platform adaptation pass of lines 129-153: on iOS delete
`actions`, shrink the vibration pattern, re-force interaction and swap
the badge; otherwise set `actions` to the two fixed buttons. -/
def adaptPlatform (ios : Bool) (n : NotificationData) : NotificationData :=
  if ios then
    { n with
      actions := none
      vibrate := [200, 100, 200]
      requireInteraction := true
      badge := iosBadge }
  else
    { n with actions := some [openAction, dismissAction] }

/-- The descriptor the push listener hands to `showNotification`:
normalization followed by platform adaptation. -/
def pushDescriptor (origin : String) (now : Nat) (ua : String)
    (payload : PushPayload) : NotificationData :=
  adaptPlatform (isIOSAgent ua) (normalizePush origin now payload)

/-! ### Activation (activate listener, lines 23-40) -/

/-- The side effects the activate listener can issue. -/
inductive ActivateEffect where
  | deleteCache (name : String)
  | claimClients
deriving DecidableEq

/-- The effect trace of the activate listener: one `caches.delete` per
existing name other than `CACHE_NAME`, and, only after all the deletes,
`clients.claim` (the `.then` on line 35). -/
def activateEffects (names : List String) : List ActivateEffect :=
  (names.filter (fun n => n != CACHE_NAME)).map ActivateEffect.deleteCache
    ++ [ActivateEffect.claimClients]

/-- Semantics of one activate effect on the set of cache names. -/
def applyEffect (names : List String) : ActivateEffect → List String
  | ActivateEffect.deleteCache n => names.filter (fun m => m != n)
  | ActivateEffect.claimClients => names

/-- The cache names remaining after the activate listener runs. -/
def runActivate (names : List String) : List String :=
  (activateEffects names).foldl applyEffect names

/-! ### Control messages (message listener, lines 294-313) -/

/-- A control message's `type` field (`event.data.type`). -/
structure Message where
  type : String
deriving DecidableEq

/-- The three branches of the message listener. -/
inductive BranchId where
  | skipWaitingBranch
  | getVersionBranch
  | syncRemindersBranch
deriving DecidableEq

/-- Which of the three independent `if` branches of the message
listener execute for a given `event.data` (absent data matches none,
since each guard is `event.data && event.data.type === ...`). -/
def messageBranches (data : Option Message) : List BranchId :=
  (match data with
    | some m => if m.type == "SKIP_WAITING" then [BranchId.skipWaitingBranch] else []
    | none => []) ++
  (match data with
    | some m => if m.type == "GET_VERSION" then [BranchId.getVersionBranch] else []
    | none => []) ++
  (match data with
    | some m => if m.type == "SYNC_REMINDERS" then [BranchId.syncRemindersBranch] else []
    | none => [])

/-! ### Concrete URLs and responses used by witnesses -/

/-- A representative cacheable app-shell URL. -/
def appUrl : Url := { hostname := "example.com", port := "", pathname := "/app.js" }

/-- A representative Pi-server URL (private-network host, port 3001). -/
def piUrl : Url := { hostname := "192.168.0.147", port := "3001", pathname := "/subscribe" }

/-- A public hostname that merely contains the substring "192.168.". -/
def publicLookalikeUrl : Url :=
  { hostname := "www.192.168.example.com", port := "", pathname := "/" }

/-- A representative successful network response. -/
def okResponse : Response := { status := 200, contentType := "text/html", body := "ok" }

/-! ### Theorems about the fetch listener -/

/-- C1: for every cacheable (non-bypass) request, the handler first
looks the request up by exact key: a hit returns the cached response
with no network call and no cache change; a miss issues the network
request, and a status-200 network response is stored (a clone) under
the request key while the response is returned, whereas a non-200
network response is returned as-is and never written to the cache. -/
theorem fetch_cacheable_strategy (c : Cache) (u : Url) (k : String) (net : Option Response)
    (hb : isBypass u = false) :
    (∀ r, cacheMatch c k = some r →
      handleFetch c u k net =
        FetchAction.respond { response := r, cache := c, networkCalled := false }) ∧
    (∀ r, cacheMatch c k = none → net = some r → r.status = 200 →
      handleFetch c u k net =
        FetchAction.respond { response := r, cache := cachePut c k r, networkCalled := true }) ∧
    (∀ r, cacheMatch c k = none → net = some r → r.status ≠ 200 →
      handleFetch c u k net =
        FetchAction.respond { response := r, cache := c, networkCalled := true }) := by
  refine ⟨?_, ?_, ?_⟩ <;> intro r
  · intro hm
    simp [handleFetch, hb, handleCacheable, hm]
  · intro hm hn h200
    simp [handleFetch, hb, handleCacheable, hm, hn, h200]
  · intro hm hn h200
    simp [handleFetch, hb, handleCacheable, hm, hn, h200]

/-- Witness for C1 at a concrete cacheable request. -/
theorem fetch_cacheable_strategy_witness :
    isBypass appUrl = false ∧
    ((∀ r, cacheMatch [] "./app.js" = some r →
        handleFetch [] appUrl "./app.js" (some okResponse) =
          FetchAction.respond { response := r, cache := [], networkCalled := false }) ∧
     (∀ r, cacheMatch [] "./app.js" = none → some okResponse = some r → r.status = 200 →
        handleFetch [] appUrl "./app.js" (some okResponse) =
          FetchAction.respond
            { response := r, cache := cachePut [] "./app.js" r, networkCalled := true }) ∧
     (∀ r, cacheMatch [] "./app.js" = none → some okResponse = some r → r.status ≠ 200 →
        handleFetch [] appUrl "./app.js" (some okResponse) =
          FetchAction.respond { response := r, cache := [], networkCalled := true })) :=
  ⟨by decide, fetch_cacheable_strategy [] appUrl "./app.js" (some okResponse) (by decide)⟩

/-- C2: every request whose host matches the private-network pattern or
whose port is 3001 is left uninterrupted: the listener performs no cache
read and no cache write, and the delivered response is the direct
network fetch. -/
theorem bypass_no_cache (c : Cache) (u : Url) (k : String) (net : Option Response)
    (hb : isBypass u = true) :
    handleFetch c u k net = FetchAction.bypass ∧
    deliveredResponse c u k net = net ∧
    finalCache c u k net = c := by
  simp [handleFetch, hb, deliveredResponse, finalCache]

/-- Witness for C2 at the Pi-server URL. -/
theorem bypass_no_cache_witness :
    isBypass piUrl = true ∧
    (handleFetch [("./", okResponse)] piUrl "/subscribe" none = FetchAction.bypass ∧
     deliveredResponse [("./", okResponse)] piUrl "/subscribe" none = none ∧
     finalCache [("./", okResponse)] piUrl "/subscribe" none = [("./", okResponse)]) :=
  ⟨by decide, bypass_no_cache [("./", okResponse)] piUrl "/subscribe" none (by decide)⟩

/-- C3: a cacheable request whose network fetch fails is answered by
the synthesized offline response: status 408, content type
application/json, and a JSON body with an error field and a message
field; the failure is absorbed into a returned response, never an
uncaught error. -/
theorem fetch_failure_synthesizes_408 (c : Cache) (u : Url) (k : String)
    (hb : isBypass u = false) (hm : cacheMatch c k = none) :
    handleFetch c u k none =
      FetchAction.respond { response := offlineResponse, cache := c, networkCalled := true } ∧
    offlineResponse.status = 408 ∧
    offlineResponse.contentType = "application/json" ∧
    ∃ e : ErrJson, offlineResponse.body = jsonStringifyErr e := by
  refine ⟨?_, rfl, rfl, ⟨_, rfl⟩⟩
  simp [handleFetch, hb, handleCacheable, hm]

/-- Witness for C3 at a concrete cacheable request with empty cache. -/
theorem fetch_failure_synthesizes_408_witness :
    isBypass appUrl = false ∧ cacheMatch [] "./app.js" = none ∧
    (handleFetch [] appUrl "./app.js" none =
      FetchAction.respond { response := offlineResponse, cache := [], networkCalled := true } ∧
    offlineResponse.status = 408 ∧
    offlineResponse.contentType = "application/json" ∧
    ∃ e : ErrJson, offlineResponse.body = jsonStringifyErr e) :=
  ⟨by decide, rfl, fetch_failure_synthesizes_408 [] appUrl "./app.js" (by decide) rfl⟩

/-- C9: any hostname containing the substring "192.168." at any
position — including public hostnames such as www.192.168.example.com —
is classified bypass, so the cache is neither read nor written and the
response is the direct network fetch. -/
theorem substring_hostname_bypass (c : Cache) (u : Url) (k : String) (net : Option Response)
    (h : strIncludes u.hostname "192.168." = true) :
    handleFetch c u k net = FetchAction.bypass ∧
    deliveredResponse c u k net = net ∧
    finalCache c u k net = c := by
  have hb : isBypass u = true := by simp [isBypass, h]
  simp [handleFetch, hb, deliveredResponse, finalCache]

/-! ### Theorems about the push listener -/

/-- C4: for a structured payload, every server-supplied field takes
precedence over the default, except `requireInteraction` and the
vibration pattern, which are forced back to their fixed values after
the merge — even when the payload sets `requireInteraction` to false. -/
theorem push_merge_precedence (origin : String) (now : Nat) (p : PushData) :
    (normalizePush origin now (PushPayload.json p)).title
      = p.title.getD (defaultNotification origin now).title ∧
    (normalizePush origin now (PushPayload.json p)).body
      = p.body.getD (defaultNotification origin now).body ∧
    (normalizePush origin now (PushPayload.json p)).icon
      = p.icon.getD (defaultNotification origin now).icon ∧
    (normalizePush origin now (PushPayload.json p)).badge
      = p.badge.getD (defaultNotification origin now).badge ∧
    (normalizePush origin now (PushPayload.json p)).tag
      = p.tag.getD (defaultNotification origin now).tag ∧
    (normalizePush origin now (PushPayload.json p)).actions
      = (match p.actions with
          | some a => some a
          | none => (defaultNotification origin now).actions) ∧
    (normalizePush origin now (PushPayload.json p)).data
      = p.data.getD (defaultNotification origin now).data ∧
    (normalizePush origin now (PushPayload.json p)).requireInteraction = true ∧
    (normalizePush origin now (PushPayload.json p)).vibrate = [200, 100, 200, 100, 200] := by
  refine ⟨rfl, rfl, rfl, rfl, rfl, rfl, rfl, rfl, rfl⟩

/-- C5 counterexample: a structured payload supplying a `tag` field
overrides the constant tag, because the spread merge only pins
`requireInteraction` and `vibrate`. -/
theorem push_tag_override_cex :
    (pushDescriptor "https://app" 0 "Mozilla"
        (PushPayload.json { tag := some "custom-tag" })).tag = "custom-tag" ∧
    "custom-tag" ≠ "reminder-notification" :=
  ⟨rfl, by decide⟩

/-- A payload that does not supply a `tag` field. -/
def payloadNoTag : PushPayload → Prop
  | PushPayload.json p => p.tag = none
  | PushPayload.noData => True
  | PushPayload.text _ => True

/-- C5 amended: the descriptor handed to `showNotification` has tag
`reminder-notification` whenever the payload does not itself supply a
`tag` field (always the case for absent or plain-text payloads). -/
theorem push_tag_amended (origin : String) (now : Nat) (ua : String) (payload : PushPayload)
    (h : payloadNoTag payload) :
    (pushDescriptor origin now ua payload).tag = "reminder-notification" := by
  have htag : (normalizePush origin now payload).tag = "reminder-notification" := by
    cases payload with
    | noData => rfl
    | json p =>
        simp only [payloadNoTag] at h
        simp [normalizePush, mergePush, h, defaultNotification]
    | text s => rfl
  unfold pushDescriptor adaptPlatform
  split <;> simpa using htag

/-- Witness for the amended C5 at a plain-text payload. -/
theorem push_tag_amended_witness :
    payloadNoTag (PushPayload.text "Call mom") ∧
    (pushDescriptor "https://app" 0 "Mozilla" (PushPayload.text "Call mom")).tag
      = "reminder-notification" :=
  ⟨trivial, push_tag_amended "https://app" 0 "Mozilla" (PushPayload.text "Call mom") trivial⟩

/-- An action button a server payload might carry. -/
def customAction : NAction := { action := "custom", title := "Custom", icon := "" }

/-- C6 counterexample: on a full platform, payload-supplied actions are
not kept — line 141 overwrites `actions` unconditionally, so the
"populate only if not already present" reading fails. -/
theorem adapt_actions_overwrite_cex :
    (pushDescriptor "https://app" 0 "Mozilla"
        (PushPayload.json { actions := some [customAction] })).actions
      = some [openAction, dismissAction] ∧
    some [openAction, dismissAction] ≠ some [customAction] :=
  ⟨rfl, by decide⟩

/-- C6 amended: on a constrained (iOS) platform the descriptor has no
`actions` field and a 3-element vibration pattern; on a full platform
`actions` is always set to exactly the two fixed entries with ids
`open` and `dismiss`, overwriting any payload-supplied actions. -/
theorem adapt_platform_shape (origin : String) (now : Nat) (payload : PushPayload) (ua : String) :
    (isIOSAgent ua = true →
      (pushDescriptor origin now ua payload).actions = none ∧
      (pushDescriptor origin now ua payload).vibrate.length = 3) ∧
    (isIOSAgent ua = false →
      (pushDescriptor origin now ua payload).actions = some [openAction, dismissAction] ∧
      openAction.action = "open" ∧ dismissAction.action = "dismiss") := by
  constructor <;> intro h <;>
    simp [pushDescriptor, adaptPlatform, h, openAction, dismissAction]

/-- Witness for the amended C6, discharging both platform hypotheses
at concrete user agents. -/
theorem adapt_platform_shape_witness :
    (isIOSAgent "Mozilla (iPhone)" = true ∧
      (pushDescriptor "o" 0 "Mozilla (iPhone)" PushPayload.noData).actions = none ∧
      (pushDescriptor "o" 0 "Mozilla (iPhone)" PushPayload.noData).vibrate.length = 3) ∧
    (isIOSAgent "Mozilla (Windows)" = false ∧
      (pushDescriptor "o" 0 "Mozilla (Windows)" PushPayload.noData).actions
        = some [openAction, dismissAction] ∧
      openAction.action = "open" ∧ dismissAction.action = "dismiss") :=
  ⟨⟨by decide, (adapt_platform_shape "o" 0 PushPayload.noData "Mozilla (iPhone)").1 (by decide)⟩,
   ⟨by decide, (adapt_platform_shape "o" 0 PushPayload.noData "Mozilla (Windows)").2 (by decide)⟩⟩

/-- C7: a payload that fails to parse as structured data yields the
default descriptor with only `body` replaced by the payload's plain
text; the parse failure is absorbed inside the normalizer, which stays
total. -/
theorem push_text_fallback (origin : String) (now : Nat) (s : String) :
    (normalizePush origin now (PushPayload.text s)).body = s ∧
    normalizePush origin now (PushPayload.text s)
      = { defaultNotification origin now with body := s } :=
  ⟨rfl, rfl⟩

/-- Witness for C9 at the public lookalike hostname. -/
theorem substring_hostname_bypass_witness :
    strIncludes publicLookalikeUrl.hostname "192.168." = true ∧
    (handleFetch [] publicLookalikeUrl "/" (some okResponse) = FetchAction.bypass ∧
     deliveredResponse [] publicLookalikeUrl "/" (some okResponse) = some okResponse ∧
     finalCache [] publicLookalikeUrl "/" (some okResponse) = []) :=
  ⟨by decide, substring_hostname_bypass [] publicLookalikeUrl "/" (some okResponse) (by decide)⟩

/-! ### Theorems about activation and the message listener -/

/-- Folding the delete effects removes exactly the listed names. -/
theorem foldl_deletes (l acc : List String) :
    List.foldl applyEffect acc (l.map ActivateEffect.deleteCache)
      = acc.filter (fun m => !(l.contains m)) := by
  induction l generalizing acc with
  | nil => simp [applyEffect]
  | cons n t ih =>
      simp only [List.map_cons, List.foldl_cons, applyEffect, ih, List.filter_filter]
      apply List.filter_congr
      intro m _
      by_cases hmn : m = n <;> simp [hmn, Bool.and_comm]

/-- After activation, exactly the occurrences of `CACHE_NAME` remain. -/
theorem runActivate_eq (names : List String) :
    runActivate names = names.filter (fun m => m == CACHE_NAME) := by
  unfold runActivate activateEffects
  rw [List.foldl_append, foldl_deletes]
  simp only [List.foldl_cons, List.foldl_nil, applyEffect]
  apply List.filter_congr
  intro m hm
  by_cases hmc : m = CACHE_NAME
  · simp [hmc]
  · simp [hmc, List.mem_filter, hm]

/-- A duplicate-free list containing `c` filters down to `[c]`. -/
theorem filter_eq_single (c : String) (names : List String)
    (h1 : names.Nodup) (h2 : c ∈ names) :
    names.filter (fun m => m == c) = [c] := by
  induction names with
  | nil => cases h2
  | cons a t ih =>
      rcases List.nodup_cons.mp h1 with ⟨hat, ht⟩
      rcases List.mem_cons.mp h2 with h | h
      · subst h
        simp only [List.filter_cons, beq_self_eq_true, if_pos]
        have hnil : t.filter (fun m => m == c) = [] := by
          apply List.filter_eq_nil_iff.mpr
          intro b hb
          simp only [beq_iff_eq]
          intro hbc
          exact hat (hbc ▸ hb)
        simp [hnil]
      · have hac : a ≠ c := fun he => hat (he ▸ h)
        simp only [List.filter_cons]
        rw [if_neg (by simpa using hac)]
        exact ih ht h

/-- C8: activation deletes every existing cache generation name except
the current one, leaving exactly that one generation, and the
client-claiming effect comes only after all the deletions in the
effect trace. -/
theorem activate_gc_and_claim (names : List String)
    (h1 : names.Nodup) (h2 : CACHE_NAME ∈ names) :
    runActivate names = [CACHE_NAME] ∧
    ∃ ds, activateEffects names = ds ++ [ActivateEffect.claimClients] ∧
      ∀ e ∈ ds, ∃ n, n ≠ CACHE_NAME ∧ e = ActivateEffect.deleteCache n := by
  constructor
  · rw [runActivate_eq]
    exact filter_eq_single CACHE_NAME names h1 h2
  · refine ⟨_, rfl, ?_⟩
    intro e he
    rcases List.mem_map.mp he with ⟨n, hn, rfl⟩
    exact ⟨n, by simpa using (List.mem_filter.mp hn).2, rfl⟩

/-- Witness for C8 with one stale and one current generation. -/
theorem activate_gc_and_claim_witness :
    (["simple-reminders-v0", CACHE_NAME].Nodup ∧
      CACHE_NAME ∈ ["simple-reminders-v0", CACHE_NAME]) ∧
    (runActivate ["simple-reminders-v0", CACHE_NAME] = [CACHE_NAME] ∧
     ∃ ds, activateEffects ["simple-reminders-v0", CACHE_NAME]
        = ds ++ [ActivateEffect.claimClients] ∧
       ∀ e ∈ ds, ∃ n, n ≠ CACHE_NAME ∧ e = ActivateEffect.deleteCache n) :=
  ⟨⟨by decide, by decide⟩,
   activate_gc_and_claim ["simple-reminders-v0", CACHE_NAME] (by decide) (by decide)⟩

/-- C10: at most one of the three message-listener branches executes
for any control message, because each branch compares the single
`type` field against a distinct constant. -/
theorem message_at_most_one_branch (data : Option Message) :
    (messageBranches data).length ≤ 1 := by
  rcases data with _ | m
  · simp [messageBranches]
  · by_cases h1 : m.type = "SKIP_WAITING" <;>
    by_cases h2 : m.type = "GET_VERSION" <;>
    by_cases h3 : m.type = "SYNC_REMINDERS" <;>
    simp_all [messageBranches]

end SW
